import Mathlib

/-!
Shallow embedding of the pepper PE-header parser (src/src/main.rs,
src/src/utils.rs, src/src/dos.rs) and proofs about the claims of its
specification.

The byte source is modelled as a `List Nat` of bytes together with an
explicit cursor position; `BufReader` reads become pure functions on
`(data, pos)`.  I/O failure from a short `read_exact` is modelled as the
`UnexpectedEof` error kind that Rust's `read_exact` produces.  The
`assert_eq!` in `parse_pe` is modelled as a distinct `panicked` outcome,
since a Rust panic is neither a returned value nor a returned error.
-/

set_option maxRecDepth 10000

namespace Pepper

/-- Error kinds of `std::io::Error` that the parser can produce: a short
`read_exact` yields `ErrorKind::UnexpectedEof`. -/
inductive IoErrorKind where
  | unexpectedEof
  deriving DecidableEq, Repr

/-- The error enum `PEError` from src/src/main.rs.  Note that it has only
two variants: `IoError(io::Error)` and `InvalidMachineType(u16)`. -/
inductive PEError where
  | ioError : IoErrorKind → PEError
  | invalidMachineType : Nat → PEError
  deriving DecidableEq, Repr

/-- The struct `PortableExecutable` from src/src/main.rs.  In the source it
is declared as `struct PortableExecutable {}` — it has no fields. -/
structure PortableExecutable where
  deriving DecidableEq, Repr

/-- Outcome of running `Parser::parse_pe`: a returned `Ok` value together
with the reader's cursor position at the moment of return, a returned
`Err`, or a panic (from the `assert_eq!`). -/
inductive ParseOutcome where
  | ok : PortableExecutable → Nat → ParseOutcome
  | error : PEError → ParseOutcome
  | panicked : ParseOutcome
  deriving DecidableEq, Repr

/-- The enum `Machine` from src/src/main.rs (25 variants). -/
inductive Machine where
  | Unknown
  | Am33
  | Amd64
  | Arm
  | Arm64
  | Armnt
  | Ebc
  | I386
  | Ia64
  | M32R
  | Mips16
  | MipsFpu
  | MipsFpu16
  | PowerPc
  | PowerPcFp
  | R4000
  | RiscV32
  | RiscV64
  | RiscV128
  | Sh3
  | Sh3Dsp
  | Sh4
  | Sh5
  | Thumb
  | WceMipsV2
  deriving DecidableEq, Repr

/-- The `#[repr(u16)]` discriminant of each `Machine` variant, as declared
in the enum in src/src/main.rs. -/
def Machine.code : Machine → Nat
  | .Unknown => 0x0
  | .Am33 => 0x1d3
  | .Amd64 => 0x8664
  | .Arm => 0x1c0
  | .Arm64 => 0xaa64
  | .Armnt => 0x1c4
  | .Ebc => 0xebc
  | .I386 => 0x14c
  | .Ia64 => 0x200
  | .M32R => 0x9041
  | .Mips16 => 0x266
  | .MipsFpu => 0x366
  | .MipsFpu16 => 0x466
  | .PowerPc => 0x1f0
  | .PowerPcFp => 0x1f1
  | .R4000 => 0x166
  | .RiscV32 => 0x5032
  | .RiscV64 => 0x5064
  | .RiscV128 => 0x5128
  | .Sh3 => 0x1a2
  | .Sh3Dsp => 0x1a3
  | .Sh4 => 0x1a6
  | .Sh5 => 0x1a8
  | .Thumb => 0x1c2
  | .WceMipsV2 => 0x169

/-- The codes appearing in the `match` of `impl TryFrom<u16> for Machine`
in src/src/main.rs, in source order. -/
def machineCodes : List Nat :=
  [0x0, 0x1d3, 0x8664, 0x1c0, 0xaa64, 0x1c4, 0xebc, 0x14c, 0x200, 0x9041,
   0x266, 0x366, 0x466, 0x1f0, 0x1f1, 0x166, 0x5032, 0x5064, 0x5128,
   0x1a2, 0x1a3, 0x1a6, 0x1a8, 0x1c2, 0x169]

/-- `impl TryFrom<u16> for Machine` from src/src/main.rs: a `match`
over the 25 codes, any other code yields `Err(PEError::InvalidMachineType(n))`.
The Rust `match` on integer literals is embedded as a chain of equality
tests in source order. -/
def Machine.tryFrom (n : Nat) : Except PEError Machine :=
  if n = 0x0 then .ok .Unknown
  else if n = 0x1d3 then .ok .Am33
  else if n = 0x8664 then .ok .Amd64
  else if n = 0x1c0 then .ok .Arm
  else if n = 0xaa64 then .ok .Arm64
  else if n = 0x1c4 then .ok .Armnt
  else if n = 0xebc then .ok .Ebc
  else if n = 0x14c then .ok .I386
  else if n = 0x200 then .ok .Ia64
  else if n = 0x9041 then .ok .M32R
  else if n = 0x266 then .ok .Mips16
  else if n = 0x366 then .ok .MipsFpu
  else if n = 0x466 then .ok .MipsFpu16
  else if n = 0x1f0 then .ok .PowerPc
  else if n = 0x1f1 then .ok .PowerPcFp
  else if n = 0x166 then .ok .R4000
  else if n = 0x5032 then .ok .RiscV32
  else if n = 0x5064 then .ok .RiscV64
  else if n = 0x5128 then .ok .RiscV128
  else if n = 0x1a2 then .ok .Sh3
  else if n = 0x1a3 then .ok .Sh3Dsp
  else if n = 0x1a6 then .ok .Sh4
  else if n = 0x1a8 then .ok .Sh5
  else if n = 0x1c2 then .ok .Thumb
  else if n = 0x169 then .ok .WceMipsV2
  else .error (.invalidMachineType n)

/-- The enum `Characteristics` from src/src/main.rs (16 variants, one per
bit of the 16-bit characteristics word). -/
inductive Characteristics where
  | RelocsStripped
  | ExecutableImage
  | LineNumsStripped
  | LocalSymsStripped
  | AggressiveWsTrim
  | LargeAddressAware
  | Reserved
  | BytesReversedLo
  | Machine32Bit
  | DebugStripped
  | RemovableRunFromSwap
  | NetRunFromSwap
  | System
  | Dll
  | UpSystemOnly
  | BytesReversedHi
  deriving DecidableEq, Repr

/-- The discriminant of each `Characteristics` variant, as declared in the
enum in src/src/main.rs: each variant owns exactly one bit. -/
def Characteristics.bits : Characteristics → Nat
  | .RelocsStripped => 0x0001
  | .ExecutableImage => 0x0002
  | .LineNumsStripped => 0x0004
  | .LocalSymsStripped => 0x0008
  | .AggressiveWsTrim => 0x0010
  | .LargeAddressAware => 0x0020
  | .Reserved => 0x0040
  | .BytesReversedLo => 0x0080
  | .Machine32Bit => 0x0100
  | .DebugStripped => 0x0200
  | .RemovableRunFromSwap => 0x0400
  | .NetRunFromSwap => 0x0800
  | .System => 0x1000
  | .Dll => 0x2000
  | .UpSystemOnly => 0x4000
  | .BytesReversedHi => 0x8000

/-- All 16 `Characteristics` variants, in declaration order. -/
def allCharacteristics : List Characteristics :=
  [.RelocsStripped, .ExecutableImage, .LineNumsStripped, .LocalSymsStripped,
   .AggressiveWsTrim, .LargeAddressAware, .Reserved, .BytesReversedLo,
   .Machine32Bit, .DebugStripped, .RemovableRunFromSwap, .NetRunFromSwap,
   .System, .Dll, .UpSystemOnly, .BytesReversedHi]

/-- Modelled from the spec: src/ defines the `Characteristics` enum but no
decode function for it (§4.5 describes one).  "given a raw 16-bit bitmask,
produces the set of flags whose bit is set" — the set is modelled as its
characteristic function; flag `c` owns bit value `c.bits = 2 ^ k` and is in
the set exactly when binary digit `k` of the mask is 1, i.e.
`mask / c.bits % 2 = 1`. -/
def decode_characteristics (mask : Nat) : Characteristics → Bool :=
  fun c => decide (mask / c.bits % 2 = 1)

/-- Modelled from the spec: re-encoding of a flag set (§4.5, "decode then
re-encode must reproduce the original bitmask exactly").  Since each flag
owns exactly one distinct bit, the combined bitmask is the sum of the bit
values of the flags present in the set. -/
def encode_characteristics (s : Characteristics → Bool) : Nat :=
  (allCharacteristics.map (fun c => cond (s c) c.bits 0)).sum

/-- `read_exact` over the modelled byte source (src/src/utils.rs and
`std::io::Read::read_exact`): consumes exactly `n` bytes starting at `pos`
or fails with `UnexpectedEof` when fewer remain; never zero-pads. -/
def readExact (data : List Nat) (pos n : Nat) : Except PEError (List Nat × Nat) :=
  if pos + n ≤ data.length then .ok ((data.drop pos).take n, pos + n)
  else .error (.ioError .unexpectedEof)

/-- `u32::from_le_bytes` on a 4-byte buffer. -/
def le32 : List Nat → Nat
  | [b0, b1, b2, b3] => b0 + b1 * 0x100 + b2 * 0x10000 + b3 * 0x1000000
  | _ => 0

/-- `read_u32` from src/src/utils.rs: read 4 bytes little-endian. -/
def read_u32 (data : List Nat) (pos : Nat) : Except PEError (Nat × Nat) :=
  match readExact data pos 4 with
  | .ok (bs, p) => .ok (le32 bs, p)
  | .error e => .error e

/-- The length of the scratch constant `DOS_HEADER: [u8; 60]` from
src/src/main.rs. -/
def DOS_HEADER_LEN : Nat := 60

/-- The constant `PE_HEADER: &[u8; 4] = b"PE\x5c0\x5c0"` from src/src/main.rs. -/
def PE_HEADER : List Nat := [0x50, 0x45, 0x00, 0x00]

/-- `Parser::parse_pe` from src/src/main.rs, with the open file replaced by
the byte list `data` and the `BufReader` cursor made explicit.

Line by line:
`buf.read_exact(&mut DOS_HEADER)?` reads 60 bytes into a temporary copy of
the constant, which is immediately discarded (the bytes bind to `_`);
`read_u32(&mut buf)?` reads `e_lfanew`, leaving the cursor at 64;
`buf.seek_relative(i64::from(ptr) - 64)?` moves the cursor to absolute
position `pos2 + ptr - 64 = ptr` — the target is never negative because
`pos2 = 64`, so the relative seek itself cannot fail;
`assert_eq!(&read_bytes_to_buffer!(buf, 4), PE_HEADER)` reads 4 bytes
(`?`-propagating EOF) and panics when they differ from `PE\x5c0\x5c0`;
on success `Ok(PortableExecutable {})` is returned with the cursor just
past the signature. -/
def parse_pe (data : List Nat) : ParseOutcome :=
  match readExact data 0 DOS_HEADER_LEN with
  | .error e => .error e
  | .ok (_, pos) =>
    match read_u32 data pos with
    | .error e => .error e
    | .ok (ptr, pos2) =>
      match readExact data (pos2 + ptr - 64) 4 with
      | .error e => .error e
      | .ok (sig, pos3) =>
        if sig = PE_HEADER then .ok {} pos3 else .panicked

/-- The `e_lfanew` field of an input: the little-endian `u32` at file
offset 60 (the last field of the 64-byte `DosHeader` of src/src/dos.rs). -/
def e_lfanew_of (data : List Nat) : Nat := le32 ((data.drop 60).take 4)

/-- Characterization of `parse_pe`: it fails with `UnexpectedEof` when the
input has fewer than 64 bytes (either the 60-byte scratch read or the
`e_lfanew` read runs short), otherwise seeks to `e_lfanew` and reads 4
bytes there (`UnexpectedEof` if out of range), succeeding exactly when they
are `PE\x5c0\x5c0` and panicking otherwise. -/
theorem parse_pe_eq (data : List Nat) :
    parse_pe data =
      if 64 ≤ data.length then
        if e_lfanew_of data + 4 ≤ data.length then
          if (data.drop (e_lfanew_of data)).take 4 = PE_HEADER then
            ParseOutcome.ok {} (e_lfanew_of data + 4)
          else ParseOutcome.panicked
        else ParseOutcome.error (PEError.ioError IoErrorKind.unexpectedEof)
      else ParseOutcome.error (PEError.ioError IoErrorKind.unexpectedEof) := by
  by_cases h64 : 64 ≤ data.length
  · have h60 : 60 ≤ data.length := by omega
    by_cases hP : le32 ((data.drop 60).take 4) + 4 ≤ data.length
    · by_cases hsig : (data.drop (le32 ((data.drop 60).take 4))).take 4 = PE_HEADER
      all_goals
        simp [parse_pe, readExact, read_u32, DOS_HEADER_LEN, e_lfanew_of,
          Nat.add_sub_cancel_left, h64, h60, hP, hsig]
    · simp [parse_pe, readExact, read_u32, DOS_HEADER_LEN, e_lfanew_of,
        Nat.add_sub_cancel_left, h64, h60, hP]
  · by_cases h60 : 60 ≤ data.length
    all_goals
      simp [parse_pe, readExact, read_u32, DOS_HEADER_LEN, e_lfanew_of, h64, h60]

/-- C4: For every variant of the machine-type enumeration, decoding that
variant's 16-bit code (`Machine::try_from` applied to the variant's
discriminant) returns exactly that variant — the code-to-variant round-trip
holds over the whole closed table. -/
theorem machine_code_roundtrip (m : Machine) :
    Machine.tryFrom m.code = Except.ok m := by
  cases m <;> rfl

/-- C5: For every 16-bit code that is not one of the codes in the fixed
machine table, `Machine::try_from` fails with `InvalidMachineType` carrying
that exact offending code; it accepts no code outside the table. -/
theorem machine_tryFrom_outside_table (n : Nat) (_h16 : n < 0x10000)
    (h : n ∉ machineCodes) :
    Machine.tryFrom n = Except.error (PEError.invalidMachineType n) := by
  simp only [machineCodes, List.mem_cons, List.not_mem_nil, or_false, not_or] at h
  obtain ⟨h1, h2, h3, h4, h5, h6, h7, h8, h9, h10, h11, h12, h13, h14, h15,
    g16, h17, h18, h19, h20, h21, h22, h23, h24, h25⟩ := h
  simp [Machine.tryFrom, h1, h2, h3, h4, h5, h6, h7, h8, h9, h10, h11, h12,
    h13, h14, h15, g16, h17, h18, h19, h20, h21, h22, h23, h24, h25]

/-- Witness for C5 at the concrete code 0xFFFF. -/
theorem machine_tryFrom_outside_table_witness :
    ((0xFFFF : Nat) < 0x10000 ∧ (0xFFFF : Nat) ∉ machineCodes) ∧
      Machine.tryFrom 0xFFFF = Except.error (PEError.invalidMachineType 0xFFFF) :=
  ⟨⟨by decide, by decide⟩,
    machine_tryFrom_outside_table 0xFFFF (by decide) (by decide)⟩

/-- C8: For every 16-bit bitmask, decoding it to a characteristics flag set
and re-encoding that set reproduces the original bitmask exactly; every one
of the 16 bits, including the reserved bit 0x0040, maps to exactly one
named flag. -/
theorem characteristics_roundtrip (mask : Nat) (h : mask < 0x10000) :
    encode_characteristics (decode_characteristics mask) = mask := by
  have hb : ∀ a k : Nat, cond (decide (a % 2 = 1)) k 0 = a % 2 * k := by
    intro a k
    rcases Nat.mod_two_eq_zero_or_one a with h2 | h2 <;> simp [h2]
  simp only [encode_characteristics, decode_characteristics, allCharacteristics,
    List.map_cons, List.map_nil, List.sum_cons, List.sum_nil,
    Characteristics.bits, hb]
  omega

/-- Witness for C8 at the all-bits mask 0xFFFF (reserved bit included). -/
theorem characteristics_roundtrip_witness :
    (0xFFFF : Nat) < 0x10000 ∧
      encode_characteristics (decode_characteristics 0xFFFF) = 0xFFFF :=
  ⟨by decide, characteristics_roundtrip 0xFFFF (by decide)⟩

/-- An input whose first two bytes are the ASCII pair XX instead of MZ/ZM,
otherwise laid out with `e_lfanew = 0x40` and the PE signature at 0x40. -/
def xxInput : List Nat :=
  [0x58, 0x58] ++ List.replicate 58 0 ++ [0x40, 0x00, 0x00, 0x00] ++ PE_HEADER

/-- C1 counterexample: the claim says an input whose first two bytes are XX
fails with `InvalidSignature`; on the code this very input parses
successfully (`PEError` has no `InvalidSignature` variant and the first 60
bytes are never inspected). -/
theorem parse_pe_xx_signature_succeeds :
    xxInput.take 2 = [0x58, 0x58] ∧
      parse_pe xxInput = ParseOutcome.ok {} 0x44 := by
  decide

/-- C1 (amended): the parse operation performs no DOS-signature validation
at all: an input whose first two bytes are XX parses successfully whenever
the 4 bytes at `e_lfanew` are `PE\x5c0\x5c0` and in range — and `e_lfanew` is
always read. -/
theorem parse_pe_no_signature_check (data : List Nat)
    (_hxx : data.take 2 = [0x58, 0x58])
    (h64 : 64 ≤ data.length)
    (hP4 : e_lfanew_of data + 4 ≤ data.length)
    (hsig : (data.drop (e_lfanew_of data)).take 4 = PE_HEADER) :
    parse_pe data = ParseOutcome.ok {} (e_lfanew_of data + 4) := by
  rw [parse_pe_eq, if_pos h64, if_pos hP4, if_pos hsig]

/-- Witness for C1 (amended) at the concrete XX input. -/
theorem parse_pe_no_signature_check_witness :
    (xxInput.take 2 = [0x58, 0x58] ∧ 64 ≤ xxInput.length ∧
      e_lfanew_of xxInput + 4 ≤ xxInput.length ∧
      (xxInput.drop (e_lfanew_of xxInput)).take 4 = PE_HEADER) ∧
      parse_pe xxInput = ParseOutcome.ok {} (e_lfanew_of xxInput + 4) :=
  ⟨⟨by decide, by decide, by decide, by decide⟩,
    parse_pe_no_signature_check xxInput (by decide) (by decide) (by decide)
      (by decide)⟩

/-- A 64-byte input with a well-formed DOS header (MZ signature) whose
`e_lfanew = 0x10` points back inside the DOS header, where the bytes
`PE\x5c0\x5c0` happen to sit (they occupy the `sp`/`checksum` fields). -/
def backInput : List Nat :=
  [0x4D, 0x5A] ++ List.replicate 14 0 ++ PE_HEADER ++ List.replicate 40 0 ++
    [0x10, 0x00, 0x00, 0x00]

/-- C2 counterexample: the claim says an input whose `e_lfanew = 0x10`
points inside the DOS header fails with `InvalidHeaderOffset`; on the code
this input parses successfully (`PEError` has no `InvalidHeaderOffset`
variant and no bound on `e_lfanew` is checked). -/
theorem parse_pe_backward_lfanew_succeeds :
    e_lfanew_of backInput = 0x10 ∧
      parse_pe backInput = ParseOutcome.ok {} 0x14 := by
  decide

/-- C2 (amended): when `e_lfanew` points backward into the 64-byte DOS
header, no `InvalidHeaderOffset` error occurs: the parser seeks there
anyway and succeeds exactly when the 4 bytes at that offset are
`PE\x5c0\x5c0`, panicking otherwise. -/
theorem parse_pe_backward_lfanew (data : List Nat)
    (h64 : 64 ≤ data.length) (hback : e_lfanew_of data ≤ 60) :
    parse_pe data =
      if (data.drop (e_lfanew_of data)).take 4 = PE_HEADER then
        ParseOutcome.ok {} (e_lfanew_of data + 4)
      else ParseOutcome.panicked := by
  rw [parse_pe_eq, if_pos h64, if_pos (by omega)]

/-- Witness for C2 (amended) at the concrete backward-pointing input. -/
theorem parse_pe_backward_lfanew_witness :
    (64 ≤ backInput.length ∧ e_lfanew_of backInput ≤ 60) ∧
      parse_pe backInput =
        (if (backInput.drop (e_lfanew_of backInput)).take 4 = PE_HEADER then
          ParseOutcome.ok {} (e_lfanew_of backInput + 4)
        else ParseOutcome.panicked) :=
  ⟨⟨by decide, by decide⟩,
    parse_pe_backward_lfanew backInput (by decide) (by decide)⟩

/-- An input with a valid DOS header and `e_lfanew = 0x40` pointing at the
bytes `NE\x5c0\x5c0` instead of `PE\x5c0\x5c0`. -/
def neInput : List Nat :=
  [0x4D, 0x5A] ++ List.replicate 58 0 ++ [0x40, 0x00, 0x00, 0x00] ++
    [0x4E, 0x45, 0x00, 0x00]

/-- C3 counterexample: the claim says a mismatching PE signature yields the
returned error `InvalidPeSignature` (not a panic); on the code the
`assert_eq!` panics instead — the outcome is a panic, not an `Err`
(`PEError` has no `InvalidPeSignature` variant). -/
theorem parse_pe_ne_signature_panics : parse_pe neInput = ParseOutcome.panicked := by
  decide

/-- C3 (amended): when the 4 bytes at `e_lfanew` differ from `PE\x5c0\x5c0`,
the parse operation panics via `assert_eq!` rather than returning an
error. -/
theorem parse_pe_bad_signature_panics (data : List Nat)
    (h64 : 64 ≤ data.length) (hP4 : e_lfanew_of data + 4 ≤ data.length)
    (hsig : (data.drop (e_lfanew_of data)).take 4 ≠ PE_HEADER) :
    parse_pe data = ParseOutcome.panicked := by
  rw [parse_pe_eq, if_pos h64, if_pos hP4, if_neg hsig]

/-- Witness for C3 (amended) at the concrete `NE\x5c0\x5c0` input. -/
theorem parse_pe_bad_signature_panics_witness :
    (64 ≤ neInput.length ∧ e_lfanew_of neInput + 4 ≤ neInput.length ∧
      (neInput.drop (e_lfanew_of neInput)).take 4 ≠ PE_HEADER) ∧
      parse_pe neInput = ParseOutcome.panicked :=
  ⟨⟨by decide, by decide, by decide⟩,
    parse_pe_bad_signature_panics neInput (by decide) (by decide) (by decide)⟩

/-- C6: for every input consisting of a well-formed 64-byte DOS header with
signature MZ and `e_lfanew = 0x80`, padding up to offset 0x80, and the
bytes `PE\x5c0\x5c0` at offset 0x80, the parse operation succeeds and leaves
the cursor at absolute position 0x84, immediately after the PE
signature. -/
theorem parse_pe_wellformed_cursor (data : List Nat)
    (_hmz : data.take 2 = [0x4D, 0x5A])
    (hlfanew : (data.drop 60).take 4 = [0x80, 0x00, 0x00, 0x00])
    (hlen : data.length = 0x84)
    (hsig : (data.drop 0x80).take 4 = PE_HEADER) :
    parse_pe data = ParseOutcome.ok {} 0x84 := by
  have hP : e_lfanew_of data = 0x80 := by rw [e_lfanew_of, hlfanew]; rfl
  rw [parse_pe_eq, hP, hlen]
  simp [hsig]

/-- A well-formed input for C6: MZ signature, `e_lfanew = 0x80`, zero
padding to 0x80, then the PE signature. -/
def goodInput : List Nat :=
  [0x4D, 0x5A] ++ List.replicate 58 0 ++ [0x80, 0x00, 0x00, 0x00] ++
    List.replicate 64 0 ++ PE_HEADER

/-- Witness for C6 at the concrete well-formed input. -/
theorem parse_pe_wellformed_cursor_witness :
    (goodInput.take 2 = [0x4D, 0x5A] ∧
      (goodInput.drop 60).take 4 = [0x80, 0x00, 0x00, 0x00] ∧
      goodInput.length = 0x84 ∧
      (goodInput.drop 0x80).take 4 = PE_HEADER) ∧
      parse_pe goodInput = ParseOutcome.ok {} 0x84 :=
  ⟨⟨by decide, by decide, by decide, by decide⟩,
    parse_pe_wellformed_cursor goodInput (by decide) (by decide) (by decide)
      (by decide)⟩

/-- C7: for every input file shorter than 64 bytes, the parse operation
fails with the truncation error (the `UnexpectedEof` I/O error that Rust's
`read_exact` produces, wrapped in `PEError::IoError`), propagated to the
caller with no zero-padding of the missing bytes, and does not panic or
read out of bounds. -/
theorem parse_pe_truncated (data : List Nat) (h : data.length < 64) :
    parse_pe data = ParseOutcome.error (PEError.ioError IoErrorKind.unexpectedEof) := by
  rw [parse_pe_eq, if_neg (by omega)]

/-- Witness for C7 at the empty input. -/
theorem parse_pe_truncated_witness :
    ([] : List Nat).length < 64 ∧
      parse_pe [] = ParseOutcome.error (PEError.ioError IoErrorKind.unexpectedEof) :=
  ⟨by decide, parse_pe_truncated [] (by decide)⟩

/-- `u16::from_le_bytes` on a 2-byte buffer. -/
def le16 : List Nat → Nat
  | [b0, b1] => b0 + b1 * 0x100
  | _ => 0

/-- The raw COFF machine field of an input: the little-endian `u16`
immediately after the PE signature (file offset `e_lfanew + 4`). -/
def machine_field_of (data : List Nat) : Nat :=
  le16 ((data.drop (e_lfanew_of data + 4)).take 2)

/-- A valid input whose COFF machine field (just past the signature) is
0x14C, the Intel 386 code. -/
def coffInputA : List Nat :=
  [0x4D, 0x5A] ++ List.replicate 58 0 ++ [0x40, 0x00, 0x00, 0x00] ++
    PE_HEADER ++ [0x4C, 0x01]

/-- A valid input identical to `coffInputA` except that its machine field
is 0x8664, the x64 code. -/
def coffInputB : List Nat :=
  [0x4D, 0x5A] ++ List.replicate 58 0 ++ [0x40, 0x00, 0x00, 0x00] ++
    PE_HEADER ++ [0x64, 0x86]

/-- C9 counterexample: the claim says the orchestrator's return value
contains the raw DosHeader fields, the PE-signature offset, the signature
bytes, the decoded MachineType, the decoded Characteristics and the cursor
position; but two successful parses whose machine fields decode to two
different `Machine` variants return identical values — `PortableExecutable`
is an empty struct carrying none of those components. -/
theorem parse_pe_output_carries_nothing :
    Machine.tryFrom (machine_field_of coffInputA) = Except.ok Machine.I386 ∧
      Machine.tryFrom (machine_field_of coffInputB) = Except.ok Machine.Amd64 ∧
      parse_pe coffInputA = parse_pe coffInputB := by
  refine ⟨by rfl, by rfl, by decide⟩

/-- C9 (amended): every successful parse returns the same, empty
`PortableExecutable` value — the struct has no fields, so the output
contains none of the components the spec lists; only the cursor position
(modelled alongside the returned value) is determined by the input. -/
theorem parse_pe_ok_value_unique (d1 d2 : List Nat)
    (r1 r2 : PortableExecutable) (p1 p2 : Nat)
    (h1 : parse_pe d1 = ParseOutcome.ok r1 p1)
    (h2 : parse_pe d2 = ParseOutcome.ok r2 p2) :
    r1 = r2 := by
  cases r1
  cases r2
  rfl

/-- Witness for C9 (amended) at the two concrete successful parses. -/
theorem parse_pe_ok_value_unique_witness :
    (parse_pe coffInputA = ParseOutcome.ok {} 0x44 ∧
      parse_pe coffInputB = ParseOutcome.ok {} 0x44) ∧
      PortableExecutable.mk = PortableExecutable.mk :=
  ⟨⟨by decide, by decide⟩,
    parse_pe_ok_value_unique coffInputA coffInputB {} {} 0x44 0x44
      (by decide) (by decide)⟩

/-- An input of the same length as `backInput`, agreeing with it on every
byte from offset 60 onward, but without the `PE\x5c0\x5c0` bytes inside the
first 60 bytes that `backInput` carries at offset 0x10. -/
def overlapInput : List Nat :=
  [0x4D, 0x5A] ++ List.replicate 14 0 ++ [0x00, 0x00, 0x00, 0x00] ++
    List.replicate 40 0 ++ [0x10, 0x00, 0x00, 0x00]

/-- C10 counterexample: `backInput` and `overlapInput` have the same length
and agree on every byte from offset 60 onward, yet parse differently
(success versus panic), because their shared `e_lfanew = 0x10` makes the
parser seek back into the first 60 bytes and re-read them. -/
theorem parse_pe_first60_bytes_matter :
    overlapInput.length = backInput.length ∧
      overlapInput.drop 60 = backInput.drop 60 ∧
      parse_pe backInput ≠ parse_pe overlapInput := by
  decide

/-- C10 (amended): two same-length inputs agreeing from offset 60 onward
parse identically provided their (shared) `e_lfanew` does not point back
into the first 60 bytes; the initial 60-byte read itself is discarded, but
the seek to `e_lfanew` can re-read those bytes when `e_lfanew < 60`. -/
theorem parse_pe_first60_independent (d1 d2 : List Nat)
    (hlen : d1.length = d2.length) (hdrop : d1.drop 60 = d2.drop 60)
    (hfwd : 60 ≤ e_lfanew_of d1) :
    parse_pe d1 = parse_pe d2 := by
  have hP : e_lfanew_of d1 = e_lfanew_of d2 := by
    rw [e_lfanew_of, e_lfanew_of, hdrop]
  have hdropP : d1.drop (e_lfanew_of d1) = d2.drop (e_lfanew_of d1) := by
    have h1 : d1.drop (e_lfanew_of d1) = (d1.drop 60).drop (e_lfanew_of d1 - 60) := by
      rw [List.drop_drop]
      congr 1
      omega
    have h2 : d2.drop (e_lfanew_of d1) = (d2.drop 60).drop (e_lfanew_of d1 - 60) := by
      rw [List.drop_drop]
      congr 1
      omega
    rw [h1, h2, hdrop]
  rw [parse_pe_eq, parse_pe_eq, hlen, ← hP, hdropP]

/-- Two same-length inputs with entirely different first 60 bytes, equal
tails, and a forward-pointing `e_lfanew = 0x40`. -/
def tailInputA : List Nat :=
  List.replicate 60 0 ++ [0x40, 0x00, 0x00, 0x00] ++ PE_HEADER

/-- Same tail as `tailInputA` but every one of the first 60 bytes
differs. -/
def tailInputB : List Nat :=
  List.replicate 60 0xFF ++ [0x40, 0x00, 0x00, 0x00] ++ PE_HEADER

/-- Witness for C10 (amended) at the two concrete inputs. -/
theorem parse_pe_first60_independent_witness :
    (tailInputA.length = tailInputB.length ∧
      tailInputA.drop 60 = tailInputB.drop 60 ∧
      60 ≤ e_lfanew_of tailInputA) ∧
      parse_pe tailInputA = parse_pe tailInputB :=
  ⟨⟨by decide, by decide, by decide⟩,
    parse_pe_first60_independent tailInputA tailInputB (by decide) (by decide)
      (by decide)⟩

end Pepper
